import Mathlib

/-!
Verification of the SASA skew-T/log-P sounding pipeline (`src/app.py`).

The program ingests KMA ZONDE upper-air sounding text, filters missing-value
sentinels, orders the levels by descending pressure, and renders a skew-T
diagram with a lifted-parcel profile and CAPE/CIN energy values.

The embedding below follows `src/app.py`:
* `fetch_sounding` models the record pipeline of the Python function of the
  same name: sentinel filtering (`na_values=-999.0` + `dropna` on
  PA/TA/TD), the empty-sounding guard, all-column timestamp parsing with
  `pd.to_datetime(..., format="%Y%m%d%H%M")`, the descending-pressure sort
  and the observation-time extraction from the first sorted row.  The
  whitespace/comment tokenisation performed by the external library call
  `pandas.read_csv` is the boundary of the embedding: its output is the
  `List RawRecord` input here.
* The thermodynamic routines (dry lapse, LCL, moist lapse, CAPE/CIN) live in
  the external MetPy library; the repository only calls
  `mpcalc.parcel_profile` and `mpcalc.cape_cin`.  Those components are
  modelled from the specification (sections 4.2-4.4), with doc comments
  marking each such definition.
* `create_skewt_figure` models the figure-assembly control flow of the
  Python function of the same name: the `try/except` around the CAPE/CIN
  computation and the `isnan`-guarded text lines.
-/

namespace SkewT

/-- One whitespace-delimited data row of the ZONDE feed, as produced by the
`pandas.read_csv` call in `fetch_sounding` (columns `YYMMDDHHMI, STN, PA,
GH, TA, TD, WD, WS, FLAG`).  Numeric fields are embedded as rationals; the
compact timestamp is a natural number such as 202310120000. -/
structure RawRecord where
  yymmddhhmi : Nat
  stn : ℚ
  pa : ℚ
  gh : ℚ
  ta : ℚ
  td : ℚ
  wd : ℚ
  ws : ℚ
  flag : ℚ
deriving DecidableEq

/-- The missing-value sentinel: `read_csv` is invoked with
`na_values=-999.0`, so a field equal to `-999` is treated as missing. -/
def sentinel : ℚ := -999

/-- A record survives `df.dropna(subset=["PA", "TA", "TD"])` exactly when
none of pressure, temperature, dewpoint is the missing-value sentinel. -/
def keepsRecord (r : RawRecord) : Bool :=
  r.pa ≠ sentinel && r.ta ≠ sentinel && r.td ≠ sentinel

/-- Calendar timestamp produced from the `YYMMDDHHMI` field. -/
structure Timestamp where
  year : Nat
  month : Nat
  day : Nat
  hour : Nat
  minute : Nat
deriving DecidableEq

/-- Gregorian leap-year rule, as enforced by `pd.to_datetime` when it
validates a calendar date. -/
def isLeapYear (y : Nat) : Bool :=
  (y % 4 == 0 && y % 100 != 0) || (y % 400 == 0)

/-- Number of days of month `m` of year `y` (0 for an invalid month, so any
day count is rejected). -/
def daysInMonth (y m : Nat) : Nat :=
  if m = 1 ∨ m = 3 ∨ m = 5 ∨ m = 7 ∨ m = 8 ∨ m = 10 ∨ m = 12 then 31
  else if m = 4 ∨ m = 6 ∨ m = 9 ∨ m = 11 then 30
  else if m = 2 then (if isLeapYear y then 29 else 28)
  else 0

/-- `pd.to_datetime(n, format="%Y%m%d%H%M")`: split the compact number into
year/month/day/hour/minute and validate the calendar fields; `none` models
the `ValueError` raised on an unparseable timestamp. -/
def parseTimestamp (n : Nat) : Option Timestamp :=
  let minute := n % 100
  let hour := n / 100 % 100
  let day := n / 10000 % 100
  let month := n / 1000000 % 100
  let year := n / 100000000
  if 1 ≤ month ∧ month ≤ 12 ∧ 1 ≤ day ∧ day ≤ daysInMonth year month
      ∧ hour ≤ 23 ∧ minute ≤ 59 then
    some ⟨year, month, day, hour, minute⟩
  else
    none

/-- One validated sounding level: pressure (hPa), temperature (°C),
dewpoint (°C) and the observation timestamp carried by its row. -/
structure SoundingLevel where
  pressure : ℚ
  temperature : ℚ
  dewpoint : ℚ
  timestamp : Timestamp
deriving DecidableEq

/-- The validated series handed to the plotting code: the rows of the
filtered, pressure-sorted data frame. -/
structure Sounding where
  levels : List SoundingLevel
deriving DecidableEq

/-- The level built from a surviving record and its parsed timestamp. -/
def toLevel (r : RawRecord) (ts : Timestamp) : SoundingLevel :=
  ⟨r.pa, r.ta, r.td, ts⟩

/-- Insert a level into a list already sorted by descending pressure,
placing it after every level of greater-or-equal pressure.  Levels already
in the list came later in the original order, so equal pressures end up in
reversed input order — matching `sort_values(ascending=False)`, which
reverses the ascending argsort of its non-stable default quicksort. -/
def insertDesc (r : SoundingLevel) : List SoundingLevel → List SoundingLevel
  | [] => [r]
  | y :: ys => if r.pressure ≤ y.pressure then y :: insertDesc r ys else r :: y :: ys

/-- `df.sort_values("PA", ascending=False)`: sort the levels by descending
pressure (rows of equal pressure come out in reversed input order, see
`insertDesc`). -/
def sortByPressureDesc : List SoundingLevel → List SoundingLevel
  | [] => []
  | x :: xs => insertDesc x (sortByPressureDesc xs)

/-- The distinct `ValueError` branches of `fetch_sounding` that concern the
parsed data (the HTTP/encoding branches lie outside the record boundary):
the empty-after-filtering guard, the timestamp-conversion failure, and the
defensive guard around `df["datetime"].iloc[0]`. -/
inductive ParseError where
  | emptySoundingError
  | timestampError
  | obsTimeError
deriving DecidableEq

/-- Successful result of `fetch_sounding`: the sorted sounding and the
observation time read from its first row. -/
structure ParseOutput where
  sounding : Sounding
  obsTime : Timestamp
deriving DecidableEq

/-- `pd.to_datetime(df["YYMMDDHHMI"], ...)` over the filtered rows: the
conversion raises on the first unparseable value, so one bad timestamp
aborts the whole column conversion (`none`); otherwise every row becomes a
level. -/
def parseAll : List RawRecord → Option (List SoundingLevel)
  | [] => some []
  | r :: rs =>
    match parseTimestamp r.yymmddhhmi, parseAll rs with
    | some ts, some rest => some (toLevel r ts :: rest)
    | _, _ => none

/-- The record pipeline of `fetch_sounding` (src/app.py lines 84-127):
drop sentinel rows, fail if nothing remains, convert every remaining
timestamp (`pd.to_datetime` raises on the first bad value, so one failure
aborts the whole conversion), sort by descending pressure, and read the
observation time from the first sorted row. -/
def fetch_sounding (records : List RawRecord) : Except ParseError ParseOutput :=
  let valid := records.filter keepsRecord
  if valid.isEmpty then
    .error .emptySoundingError
  else
    match parseAll valid with
    | none => .error .timestampError
    | some lvls =>
      match sortByPressureDesc lvls with
      | [] => .error .obsTimeError
      | l :: ls => .ok ⟨⟨l :: ls⟩, l.timestamp⟩

instance : DecidableEq (Except ParseError ParseOutput) := fun a b =>
  match a, b with
  | .ok x, .ok y => decidable_of_iff (x = y) (by simp)
  | .error x, .error y => decidable_of_iff (x = y) (by simp)
  | .ok x, .error y => isFalse (fun h => Except.noConfusion h)
  | .error x, .ok y => isFalse (fun h => Except.noConfusion h)

/-- Pressures of a sounding, surface first. -/
def Sounding.pressures (s : Sounding) : List ℚ :=
  s.levels.map (·.pressure)

/-- The invariant claimed for `Sounding`: strictly decreasing pressures. -/
def strictlyDecreasing (s : Sounding) : Prop :=
  List.Pairwise (fun a b : SoundingLevel => b.pressure < a.pressure) s.levels

/-- Pressures sorted in descending (non-increasing) order. -/
def sortedDesc (l : List SoundingLevel) : Prop :=
  List.Pairwise (fun a b : SoundingLevel => b.pressure ≤ a.pressure) l

instance (s : Sounding) : Decidable (strictlyDecreasing s) := by
  unfold strictlyDecreasing; infer_instance

/-- Number of distinct pressures among the records that survive sentinel
filtering. -/
def distinctPressureCount (records : List RawRecord) : Nat :=
  ((records.filter keepsRecord).map (·.pa)).dedup.length

/-! ## Adiabatic process model

The repository performs its thermodynamics through the external MetPy calls
`mpcalc.parcel_profile` and `mpcalc.cape_cin` (src/app.py lines 139 and
156); the algorithms themselves are not in the repository.  The definitions
below are modelled from the specification, section 4.2.  Temperatures are
in °C, pressures in hPa; Poisson's relation and the lapse-rate formulas act
on absolute temperature, so 273.15 is added and removed at the boundary. -/

/-- Modelled from the spec: the standard dry-air exponent R/cp ≈ 0.2854 of
Poisson's relation (spec 4.2, `dryLapseTemperature`). -/
noncomputable def kappa : ℝ := 0.2854

/-- Modelled from the spec: specific gas constant of dry air (J/(kg·K)),
used for the log-pressure layer thickness of the energy integrator
(spec 4.4). -/
noncomputable def dryAirGasConstant : ℝ := 287.05

/-- Modelled from the spec: latent heat of vaporisation (J/kg), used by the
moist-adiabatic lapse-rate ODE (spec 4.2, `moistLapseTemperature`). -/
noncomputable def latentHeat : ℝ := 2501000

/-- Modelled from the spec: specific heat of dry air at constant pressure
(J/(kg·K)). -/
noncomputable def specificHeat : ℝ := 1005

/-- Modelled from the spec: ratio of the molar masses of water vapour and
dry air, the constant of the mixing-ratio formula. -/
noncomputable def epsilon : ℝ := 0.622

/-- Modelled from the spec: `dryLapseTemperature(p0, T0, p)`, the
temperature (°C) after dry-adiabatic displacement from `p0` to `p` by
Poisson's relation `T = T0 * (p/p0)^(R/cp)` on absolute temperature
(spec 4.2). -/
noncomputable def dryLapseTemperature (p0 T0 p : ℝ) : ℝ :=
  (T0 + 273.15) * (p / p0) ^ kappa - 273.15

/-- Modelled from the spec: Clausius–Clapeyron-derived saturation vapour
pressure approximation (Bolton's formula, hPa), the basis of
`saturationMixingRatio` (spec 4.2). -/
noncomputable def saturationVaporPressure (t : ℝ) : ℝ :=
  6.112 * Real.exp (17.67 * t / (t + 243.5))

/-- Modelled from the spec: `saturationMixingRatio(p, T)`, the mixing ratio
obtained from the vapour-pressure approximation (spec 4.2). -/
noncomputable def saturationMixingRatio (p t : ℝ) : ℝ :=
  epsilon * saturationVaporPressure t / (p - saturationVaporPressure t)

/-- Modelled from the spec: partial vapour pressure recovered from a mixing
ratio, the inverse step used inside the LCL solver (spec 4.2). -/
noncomputable def vaporPressureOfMixing (p w : ℝ) : ℝ :=
  p * w / (epsilon + w)

/-- Modelled from the spec: dewpoint (°C) at a given vapour pressure, the
inverse of `saturationVaporPressure`. -/
noncomputable def dewpointAtVaporPressure (e : ℝ) : ℝ :=
  243.5 * Real.log (e / 6.112) / (17.67 - Real.log (e / 6.112))

/-- Modelled from the spec: one step of the iterative LCL solver
(spec 4.2, `lclPressure`): from the current pressure estimate `p`, find the
dewpoint of the conserved mixing ratio there and move to the pressure where
the dry adiabat through `(p0, T0)` reaches that temperature. -/
noncomputable def lclStep (p0 T0 Td0 p : ℝ) : ℝ :=
  let w := saturationMixingRatio p0 Td0
  let td := dewpointAtVaporPressure (vaporPressureOfMixing p w)
  p0 * ((td + 273.15) / (T0 + 273.15)) ^ (1 / kappa)

/-- Modelled from the spec: the solver iteration with the 0.01 hPa
convergence test and the iteration cap, after which the best estimate is
returned rather than failing (spec 4.2). -/
noncomputable def lclIterate (p0 T0 Td0 : ℝ) : Nat → ℝ → ℝ
  | 0, p => p
  | n + 1, p =>
    let q := lclStep p0 T0 Td0 p
    if |q - p| < 0.01 then q else lclIterate p0 T0 Td0 n q

/-- Modelled from the spec: `lclPressure(p0, T0, Td0)`, iterative
root-finding started from the surface pressure with a cap of 50 iterations
(spec 4.2). -/
noncomputable def lclPressure (p0 T0 Td0 : ℝ) : ℝ :=
  lclIterate p0 T0 Td0 50 p0

/-- Modelled from the spec: the moist-adiabatic lapse rate dT/d(ln p)
(K per unit log-pressure) integrated by `moistLapseTemperature`
(spec 4.2). -/
noncomputable def moistLapseRate (p t : ℝ) : ℝ :=
  let tk := t + 273.15
  let rs := saturationMixingRatio p t
  (dryAirGasConstant * tk + latentHeat * rs) /
    (specificHeat + latentHeat ^ 2 * rs * epsilon / (dryAirGasConstant * tk ^ 2))

/-- Modelled from the spec: forward-Euler steps of the moist lapse-rate ODE
in log-pressure space (spec 4.2, `moistLapseTemperature`). -/
noncomputable def moistEuler (h : ℝ) : Nat → ℝ → ℝ → ℝ
  | 0, _, t => t
  | n + 1, lnp, t => moistEuler h n (lnp + h) (t + moistLapseRate (Real.exp lnp) t * h)

/-- Modelled from the spec: `moistLapseTemperature(p0, T0, p)`, integrating
the moist-adiabatic lapse rate from `p0` to `p` with fixed log-pressure
steps of size at most 0.02 (spec 4.2). -/
noncomputable def moistLapseTemperature (p0 T0 p : ℝ) : ℝ :=
  let dlnp := Real.log p - Real.log p0
  let n : Nat := max 1 ⌈|dlnp| / 0.02⌉₊
  moistEuler (dlnp / n) n (Real.log p0) T0

/-! ## Parcel profile engine (spec 4.3) -/

/-- The parcel's temperature trace: one temperature per environmental
level, plus the LCL point marking the dry-to-moist transition. -/
structure ParcelTrace where
  lclP : ℝ
  lclT : ℝ
  temps : List ℝ

/-- Modelled from the spec: the parcel temperature at pressure `p` for a
parcel lifted from `(p0, T0)` with LCL at `(lclP, lclT)`: dry adiabat at or
below the LCL, moist adiabat seeded from the LCL above it (spec 4.3). -/
noncomputable def parcelTempAt (p0 T0 lclP lclT p : ℝ) : ℝ :=
  if lclP ≤ p then dryLapseTemperature p0 T0 p else moistLapseTemperature lclP lclT p

/-- Modelled from the spec: the parcel profile engine — compute the LCL
from the surface level and trace the parcel at every environmental
pressure (spec 4.3); `none` models the crash `mpcalc.parcel_profile` would
have on an empty series, which the parser's guard makes unreachable. -/
noncomputable def parcelTrace (s : Sounding) : Option ParcelTrace :=
  match s.levels with
  | [] => none
  | surf :: rest =>
    let p0 : ℝ := (surf.pressure : ℝ)
    let T0 : ℝ := (surf.temperature : ℝ)
    let Td0 : ℝ := (surf.dewpoint : ℝ)
    let lp := lclPressure p0 T0 Td0
    let lt := dryLapseTemperature p0 T0 lp
    some ⟨lp, lt,
      ((surf :: rest).map fun lvl => parcelTempAt p0 T0 lp lt (lvl.pressure : ℝ))⟩

/-- Environment temperature at the LCL pressure, linearly interpolated in
log-pressure between the enclosing levels of the merged series. -/
noncomputable def envInterp (x y : ℝ × ℝ × ℝ) (p : ℝ) : ℝ :=
  x.2.1 + (y.2.1 - x.2.1) * (Real.log (x.1 / p) / Real.log (x.1 / y.1))

/-- Modelled from the spec: insert the LCL point into the merged
(pressure, environment T, parcel T) series when no level coincides with it
(spec 4.3). -/
noncomputable def insertLclPoint (lclP lclT : ℝ) :
    List (ℝ × ℝ × ℝ) → List (ℝ × ℝ × ℝ)
  | [] => []
  | [x] => [x]
  | x :: y :: rest =>
    if lclP < x.1 ∧ y.1 < lclP then
      x :: (lclP, envInterp x y lclP, lclT) :: y :: rest
    else
      x :: insertLclPoint lclP lclT (y :: rest)

/-- Modelled from the spec: the merged (pressure, environment T, parcel T)
series consumed by the energy integrator (spec 4.3/4.4). -/
noncomputable def mergedSeries (s : Sounding) (tr : ParcelTrace) : List (ℝ × ℝ × ℝ) :=
  insertLclPoint tr.lclP tr.lclT
    ((s.levels.zip tr.temps).map fun z => ((z.1.pressure : ℝ), (z.1.temperature : ℝ), z.2))

/-! ## Energy integrator (spec 4.4) -/

/-- CAPE/CIN result; `none` is the undefined (`NaN`) outcome, distinct from
zero joules. -/
structure EnergyResult where
  cape : Option ℝ
  cin : Option ℝ

/-- Modelled from the spec: trapezoidal layer contributions — for each
adjacent pair of levels, the mean of the two buoyancies (parcel minus
environment temperature) times the layer thickness `R_d · ln(p_lower /
p_upper)` (spec 4.4). -/
noncomputable def layerContribs : List (ℝ × ℝ × ℝ) → List ℝ
  | x :: y :: rest =>
    dryAirGasConstant * Real.log (x.1 / y.1) *
        (((x.2.2 - x.2.1) + (y.2.2 - y.2.1)) / 2) :: layerContribs (y :: rest)
  | _ => []

/-- Modelled from the spec: sum the positive layer contributions into CAPE
and the negative ones into CIN; when no layer is positively buoyant CAPE is
undefined (`none`, the embedding of `NaN`), not zero, and likewise for CIN
(spec 4.4). -/
noncomputable def energyResult (xs : List (ℝ × ℝ × ℝ)) : EnergyResult :=
  let cs := layerContribs xs
  let pos := cs.filter fun c => decide (0 < c)
  let neg := cs.filter fun c => decide (c < 0)
  ⟨if pos.isEmpty then none else some pos.sum,
   if neg.isEmpty then none else some neg.sum⟩

/-! ## Figure assembly (`create_skewt_figure`, src/app.py lines 133-197) -/

/-- One of the text lines drawn in the corner of the figure. -/
inductive EnergyLine where
  | capeLine (v : ℝ)
  | cinLine (v : ℝ)

/-- The `text_lines` assembly of src/app.py lines 179-183: a line is
emitted only when its value is not `NaN` (`none` embeds `NaN`). -/
def energyTextLines (capeVal cinVal : Option ℝ) : List EnergyLine :=
  (match capeVal with
   | some v => [EnergyLine.capeLine v]
   | none => []) ++
  (match cinVal with
   | some v => [EnergyLine.cinLine v]
   | none => [])

/-- The figure data produced by `create_skewt_figure`: the observation time
of the title and the CAPE/CIN values and text lines (the axis and curve
drawing is rendering, outside the modelled core). -/
structure SkewTFigure where
  obsTime : Timestamp
  capeVal : Option ℝ
  cinVal : Option ℝ
  textLines : List EnergyLine

/-- The `try/except` of src/app.py lines 155-163: on success both values
are taken from the computation (an inner `none` embeds a `NaN` float); on
any exception both are set to `NaN` (`none`). -/
def resolveCapeCin : Except String (Option ℝ × Option ℝ) → Option ℝ × Option ℝ
  | .ok vals => vals
  | .error _ => (none, none)

/-- The control flow of `create_skewt_figure` around its external calls:
the CAPE/CIN computation outcome (the external `mpcalc.cape_cin` call,
which may raise) is an input; the function always completes and returns a
figure, with the exception absorbed by the `try/except`. -/
def create_skewt_figure (capeCinRes : Except String (Option ℝ × Option ℝ))
    (obsTime : Timestamp) : Except String SkewTFigure :=
  let vals := resolveCapeCin capeCinRes
  .ok ⟨obsTime, vals.1, vals.2, energyTextLines vals.1 vals.2⟩

/-! ## Full pipeline -/

/-- The three core values of one pipeline run. -/
structure PipelineResult where
  sounding : Sounding
  obsTime : Timestamp
  trace : Option ParcelTrace
  energy : Option EnergyResult

/-- The full core pipeline on one batch of records: parse and validate,
lift the parcel, integrate the energies. -/
noncomputable def runPipeline (records : List RawRecord) :
    Except ParseError PipelineResult :=
  match fetch_sounding records with
  | .error e => .error e
  | .ok out =>
    let tr := parcelTrace out.sounding
    let en := tr.map fun t => energyResult (mergedSeries out.sounding t)
    .ok ⟨out.sounding, out.obsTime, tr, en⟩

/-! ## Concrete records used by the witnesses and counterexamples -/

/-- A record whose pressure, temperature and dewpoint are all the
missing-value sentinel. -/
def exSentinel : RawRecord := ⟨202310120000, 47102, -999, 100, -999, -999, 270, 10, 1⟩

/-- A valid surface record (1000 hPa) observed at 2023-10-12 00:00. -/
def exGood1 : RawRecord := ⟨202310120000, 47102, 1000, 100, 20, 10, 270, 10, 1⟩

/-- A second valid record sharing the 1000 hPa pressure of `exGood1`. -/
def exGood2 : RawRecord := ⟨202310120000, 47102, 1000, 200, 15, 5, 270, 12, 1⟩

/-- A valid upper-air record (850 hPa) observed at 2023-10-12 00:00. -/
def exUpper : RawRecord := ⟨202310120000, 47102, 850, 1500, 12, 4, 270, 15, 1⟩

/-- A surface record (1000 hPa) observed later, at 2023-10-12 06:00. -/
def exSurfLate : RawRecord := ⟨202310120600, 47102, 1000, 100, 20, 10, 270, 10, 1⟩

/-- A record with valid data fields but an unparseable timestamp (month
99). -/
def exBadTime : RawRecord := ⟨202399999999, 47102, 900, 900, 10, 2, 270, 10, 1⟩

/-- The sounding output expected for `[exGood1, exGood2]`: both 1000 hPa
rows survive (no duplicate elimination), the tie coming out in reversed
input order as the descending sort leaves it. -/
def exDupOut : ParseOutput :=
  ⟨⟨[⟨1000, 15, 5, ⟨2023, 10, 12, 0, 0⟩⟩, ⟨1000, 20, 10, ⟨2023, 10, 12, 0, 0⟩⟩]⟩,
   ⟨2023, 10, 12, 0, 0⟩⟩

/-- The sounding output expected for `[exUpper, exSurfLate]`: the surface
row sorts first and supplies the observation time. -/
def exObsOut : ParseOutput :=
  ⟨⟨[⟨1000, 20, 10, ⟨2023, 10, 12, 6, 0⟩⟩, ⟨850, 12, 4, ⟨2023, 10, 12, 0, 0⟩⟩]⟩,
   ⟨2023, 10, 12, 6, 0⟩⟩

/-- A neutral merged profile: the parcel temperature equals the
environment temperature at both levels, so no layer is positively
buoyant. -/
noncomputable def exNeutralProfile : List (ℝ × ℝ × ℝ) :=
  [((1000 : ℝ), (20 : ℝ), (20 : ℝ)), ((500 : ℝ), (-10 : ℝ), (-10 : ℝ))]

/-- The level produced from `exGood1`. -/
def exGoodLevel : SoundingLevel := ⟨1000, 20, 10, ⟨2023, 10, 12, 0, 0⟩⟩

/-- The sounding output expected for `[exSentinel, exGood1]`: only the
non-sentinel record survives. -/
def exMixedOut : ParseOutput := ⟨⟨[exGoodLevel]⟩, ⟨2023, 10, 12, 0, 0⟩⟩

/-! ## Helper lemmas about the sort and the timestamp conversion -/

theorem length_insertDesc (r : SoundingLevel) (l : List SoundingLevel) :
    (insertDesc r l).length = l.length + 1 := by
  induction l with
  | nil => rfl
  | cons y ys ih =>
    by_cases h : r.pressure ≤ y.pressure
    · simp [insertDesc, h, ih]
    · simp [insertDesc, h]

theorem length_sortByPressureDesc (l : List SoundingLevel) :
    (sortByPressureDesc l).length = l.length := by
  induction l with
  | nil => rfl
  | cons x xs ih => simp [sortByPressureDesc, length_insertDesc, ih]

theorem mem_insertDesc {x r : SoundingLevel} {l : List SoundingLevel} :
    x ∈ insertDesc r l ↔ x = r ∨ x ∈ l := by
  induction l with
  | nil => simp [insertDesc]
  | cons y ys ih =>
    by_cases h : r.pressure ≤ y.pressure
    · simp only [insertDesc, if_pos h, List.mem_cons, ih]
      tauto
    · simp only [insertDesc, if_neg h, List.mem_cons]

theorem mem_sortByPressureDesc {x : SoundingLevel} {l : List SoundingLevel} :
    x ∈ sortByPressureDesc l ↔ x ∈ l := by
  induction l with
  | nil => simp [sortByPressureDesc]
  | cons y ys ih => simp [sortByPressureDesc, mem_insertDesc, ih]

theorem pairwise_insertDesc {r : SoundingLevel} {l : List SoundingLevel}
    (h : List.Pairwise (fun a b : SoundingLevel => b.pressure ≤ a.pressure) l) :
    List.Pairwise (fun a b : SoundingLevel => b.pressure ≤ a.pressure) (insertDesc r l) := by
  induction l with
  | nil => simp [insertDesc]
  | cons y ys ih =>
    rcases List.pairwise_cons.mp h with ⟨hy, hys⟩
    by_cases hc : r.pressure ≤ y.pressure
    · simp only [insertDesc, if_pos hc]
      refine List.pairwise_cons.mpr ⟨?_, ih hys⟩
      intro x hx
      rcases mem_insertDesc.mp hx with rfl | hx
      · exact hc
      · exact hy x hx
    · simp only [insertDesc, if_neg hc]
      refine List.pairwise_cons.mpr ⟨?_, h⟩
      intro x hx
      rcases List.mem_cons.mp hx with rfl | hx
      · exact le_of_lt (lt_of_not_le hc)
      · exact le_trans (hy x hx) (le_of_lt (lt_of_not_le hc))

theorem pairwise_sortByPressureDesc (l : List SoundingLevel) :
    List.Pairwise (fun a b : SoundingLevel => b.pressure ≤ a.pressure)
      (sortByPressureDesc l) := by
  induction l with
  | nil => simp [sortByPressureDesc]
  | cons x xs ih => exact pairwise_insertDesc ih

theorem parseAll_length {l : List RawRecord} {lvls : List SoundingLevel}
    (h : parseAll l = some lvls) : lvls.length = l.length := by
  induction l generalizing lvls with
  | nil => simp [parseAll] at h; simp [← h]
  | cons r rs ih =>
    simp only [parseAll] at h
    cases hts : parseTimestamp r.yymmddhhmi with
    | none => rw [hts] at h; exact absurd h (by simp)
    | some ts =>
      rw [hts] at h
      cases hrest : parseAll rs with
      | none => rw [hrest] at h; exact absurd h (by simp)
      | some rest =>
        rw [hrest] at h
        simp only [Option.some.injEq] at h
        subst h
        simp [ih hrest]

theorem parseAll_mem {l : List RawRecord} {lvls : List SoundingLevel}
    {x : SoundingLevel} (h : parseAll l = some lvls) (hx : x ∈ lvls) :
    ∃ r ∈ l, ∃ ts, parseTimestamp r.yymmddhhmi = some ts ∧ x = toLevel r ts := by
  induction l generalizing lvls with
  | nil => simp [parseAll] at h; subst h; simp at hx
  | cons r rs ih =>
    simp only [parseAll] at h
    cases hts : parseTimestamp r.yymmddhhmi with
    | none => rw [hts] at h; exact absurd h (by simp)
    | some ts =>
      rw [hts] at h
      cases hrest : parseAll rs with
      | none => rw [hrest] at h; exact absurd h (by simp)
      | some rest =>
        rw [hrest] at h
        simp only [Option.some.injEq] at h
        subst h
        rcases List.mem_cons.mp hx with rfl | hx
        · exact ⟨r, List.mem_cons_self r rs, ts, hts, rfl⟩
        · rcases ih hrest hx with ⟨q, hq, ts2, hts2, hxq⟩
          exact ⟨q, List.mem_cons_of_mem r hq, ts2, hts2, hxq⟩

theorem parseAll_eq_none {l : List RawRecord} {r : RawRecord} (hr : r ∈ l)
    (hn : parseTimestamp r.yymmddhhmi = none) : parseAll l = none := by
  induction l with
  | nil => simp at hr
  | cons q qs ih =>
    rcases List.mem_cons.mp hr with rfl | hr
    · simp [parseAll, hn]
    · simp only [parseAll, ih hr]
      cases parseTimestamp q.yymmddhhmi <;> rfl

theorem fetch_sounding_ok_inv {records : List RawRecord} {out : ParseOutput}
    (h : fetch_sounding records = .ok out) :
    ∃ lvls, parseAll (records.filter keepsRecord) = some lvls ∧
      out.sounding.levels = sortByPressureDesc lvls ∧
      ∃ l ls, sortByPressureDesc lvls = l :: ls ∧ out.obsTime = l.timestamp := by
  unfold fetch_sounding at h
  by_cases he : (records.filter keepsRecord).isEmpty
  · rw [if_pos he] at h; exact absurd h (by simp)
  · rw [if_neg he] at h
    cases hp : parseAll (records.filter keepsRecord) with
    | none => rw [hp] at h; exact absurd h (by simp)
    | some lvls =>
      rw [hp] at h
      have h2 : (match sortByPressureDesc lvls with
          | [] => (Except.error ParseError.obsTimeError : Except ParseError ParseOutput)
          | l :: ls => Except.ok ⟨⟨l :: ls⟩, l.timestamp⟩) = Except.ok out := h
      cases hs : sortByPressureDesc lvls with
      | nil => rw [hs] at h2; exact absurd h2 (by simp)
      | cons l ls =>
        rw [hs] at h2
        simp only [Except.ok.injEq] at h2
        subst h2
        exact ⟨lvls, rfl, hs.symm, l, ls, hs, rfl⟩

/-! ## Claim theorems -/

/-- Claim C1: whenever sentinel filtering leaves zero valid records (in
particular when every record carries a missing-value sentinel in the
pressure, temperature or dewpoint field), `fetch_sounding` fails with the
empty-sounding error instead of returning an empty `Sounding`. -/
theorem c1_empty_after_filtering_fails (records : List RawRecord)
    (h : records.filter keepsRecord = []) :
    fetch_sounding records = .error .emptySoundingError := by
  simp [fetch_sounding, h]

/-- Concrete run of `c1_empty_after_filtering_fails` on a feed consisting
of a single all-sentinel record. -/
theorem c1_witness :
    List.filter keepsRecord [exSentinel] = [] ∧
      fetch_sounding [exSentinel] = .error .emptySoundingError :=
  ⟨by decide, c1_empty_after_filtering_fails [exSentinel] (by decide)⟩

/-- Claim C4: every level of a successfully parsed sounding originates
from an input record that survived sentinel filtering, so no level carries
a sentinel pressure, temperature or dewpoint — a record with a sentinel in
one of those fields never appears in the result. -/
theorem c4_sentinel_records_rejected (records : List RawRecord)
    (out : ParseOutput) (lvl : SoundingLevel)
    (hok : fetch_sounding records = .ok out)
    (hlvl : lvl ∈ out.sounding.levels) :
    (∃ r ∈ records, keepsRecord r = true ∧ lvl.pressure = r.pa ∧
        lvl.temperature = r.ta ∧ lvl.dewpoint = r.td) ∧
      lvl.pressure ≠ sentinel ∧ lvl.temperature ≠ sentinel ∧
      lvl.dewpoint ≠ sentinel := by
  rcases fetch_sounding_ok_inv hok with ⟨lvls, hp, hlevels, -⟩
  rw [hlevels] at hlvl
  rcases parseAll_mem hp (mem_sortByPressureDesc.mp hlvl) with ⟨r, hr, ts, hts, rfl⟩
  have hrrec : r ∈ records ∧ keepsRecord r = true := List.mem_filter.mp hr
  have hfields : r.pa ≠ sentinel ∧ r.ta ≠ sentinel ∧ r.td ≠ sentinel := by
    simpa [keepsRecord, and_assoc] using hrrec.2
  exact ⟨⟨r, hrrec.1, hrrec.2, rfl, rfl, rfl⟩, hfields.1, hfields.2.1, hfields.2.2⟩

/-- Concrete run of `c4_sentinel_records_rejected`: on
`[exSentinel, exGood1]` the surviving level has no sentinel field. -/
theorem c4_witness :
    fetch_sounding [exSentinel, exGood1] = .ok exMixedOut ∧
      exGoodLevel.pressure ≠ sentinel ∧ exGoodLevel.temperature ≠ sentinel ∧
      exGoodLevel.dewpoint ≠ sentinel :=
  ⟨by decide,
   (c4_sentinel_records_rejected [exSentinel, exGood1] exMixedOut exGoodLevel
      (by decide) (by decide)).2⟩

/-- Claim C5 counterexample: a feed holding one record with a parseable
timestamp and one whose timestamp fails to parse.  The claim says only the
bad record is dropped and parsing still succeeds; the code instead aborts
the whole parse with a timestamp error. -/
theorem c5_counterexample :
    keepsRecord exGood1 = true ∧ parseTimestamp exGood1.yymmddhhmi ≠ none ∧
      keepsRecord exBadTime = true ∧ parseTimestamp exBadTime.yymmddhhmi = none ∧
      fetch_sounding [exGood1, exBadTime] = .error .timestampError := by
  refine ⟨by decide, by decide, by decide, by decide, by decide⟩

/-- Claim C5 as amended: a record (surviving sentinel filtering) whose
timestamp fails to parse is fatal for the whole parse — the conversion of
the timestamp column aborts with a timestamp error even when other records
have parseable timestamps, not merely when every record would be
dropped. -/
theorem c5_amended_bad_timestamp_is_fatal (records : List RawRecord)
    (r : RawRecord) (hr : r ∈ records.filter keepsRecord)
    (hn : parseTimestamp r.yymmddhhmi = none) :
    fetch_sounding records = .error .timestampError := by
  have hne : (records.filter keepsRecord).isEmpty = false := by
    cases hl : records.filter keepsRecord with
    | nil => rw [hl] at hr; simp at hr
    | cons a as => rfl
  have hnone := parseAll_eq_none hr hn
  simp [fetch_sounding, hne, hnone]

/-- Concrete run of `c5_amended_bad_timestamp_is_fatal` on
`[exGood1, exBadTime]`. -/
theorem c5_witness :
    fetch_sounding [exGood1, exBadTime] = .error .timestampError :=
  c5_amended_bad_timestamp_is_fatal [exGood1, exBadTime] exBadTime
    (by decide) (by decide)

/-- Claim C10: on every successful parse the reported observation time is
the timestamp of the first row after the descending-pressure sort, a row
of maximal pressure (the surface level) — not in general the first record
in input order. -/
theorem c10_obs_time_is_surface_timestamp (records : List RawRecord)
    (out : ParseOutput) (hok : fetch_sounding records = .ok out) :
    ∃ l ls, out.sounding.levels = l :: ls ∧ out.obsTime = l.timestamp ∧
      ∀ x ∈ out.sounding.levels, x.pressure ≤ l.pressure := by
  rcases fetch_sounding_ok_inv hok with ⟨lvls, hp, hlevels, l, ls, hs, hobs⟩
  refine ⟨l, ls, by rw [hlevels, hs], hobs, ?_⟩
  intro x hx
  rw [hlevels, hs] at hx
  have hpw := pairwise_sortByPressureDesc lvls
  rw [hs] at hpw
  rcases List.mem_cons.mp hx with rfl | hx
  · exact le_refl _
  · exact (List.pairwise_cons.mp hpw).1 x hx

/-- Concrete run of `c10_obs_time_is_surface_timestamp`: the surface
record arrives second in input order and observed later, yet its timestamp
(06:00) is the one reported. -/
theorem c10_witness :
    fetch_sounding [exUpper, exSurfLate] = .ok exObsOut ∧
      ∃ l ls, exObsOut.sounding.levels = l :: ls ∧ exObsOut.obsTime = l.timestamp ∧
        ∀ x ∈ exObsOut.sounding.levels, x.pressure ≤ l.pressure :=
  ⟨by decide, c10_obs_time_is_surface_timestamp [exUpper, exSurfLate] exObsOut (by decide)⟩

/-- Claim C2 counterexample: two valid records share the pressure 1000
hPa.  The parser keeps both (there is no duplicate elimination), so the
output pressures are not strictly decreasing and the length is the number
of valid records, not the number of distinct pressures. -/
theorem c2_counterexample :
    fetch_sounding [exGood1, exGood2] = .ok exDupOut ∧
      ¬ strictlyDecreasing exDupOut.sounding ∧
      exDupOut.sounding.levels.length ≠ distinctPressureCount [exGood1, exGood2] := by
  refine ⟨by decide, by decide, by decide⟩

/-- Claim C2 as amended: on every successful parse the pressures are
non-increasing (descending sort with duplicate pressures retained, not
eliminated) and the length equals the number of records surviving sentinel
filtering. -/
theorem c2_amended_sorted_with_duplicates (records : List RawRecord)
    (out : ParseOutput) (hok : fetch_sounding records = .ok out) :
    List.Pairwise (fun a b : SoundingLevel => b.pressure ≤ a.pressure)
        out.sounding.levels ∧
      out.sounding.levels.length = (records.filter keepsRecord).length := by
  rcases fetch_sounding_ok_inv hok with ⟨lvls, hp, hlevels, -⟩
  constructor
  · rw [hlevels]; exact pairwise_sortByPressureDesc lvls
  · rw [hlevels, length_sortByPressureDesc, parseAll_length hp]

/-- Concrete run of `c2_amended_sorted_with_duplicates` on the
duplicate-pressure feed. -/
theorem c2_witness :
    List.Pairwise (fun a b : SoundingLevel => b.pressure ≤ a.pressure)
        exDupOut.sounding.levels ∧
      exDupOut.sounding.levels.length =
        (List.filter keepsRecord [exGood1, exGood2]).length :=
  c2_amended_sorted_with_duplicates [exGood1, exGood2] exDupOut (by decide)

/-- Claim C7: dry-adiabatic displacement from a pressure to itself is the
identity: `dryLapseTemperature p T p = T` for every valid (positive)
pressure and every temperature. -/
theorem c7_dry_lapse_identity (p T : ℝ) (hp : 0 < p) :
    dryLapseTemperature p T p = T := by
  unfold dryLapseTemperature
  rw [div_self (ne_of_gt hp), Real.one_rpow]
  ring

/-- Concrete run of `c7_dry_lapse_identity` at 1000 hPa and 25 °C. -/
theorem c7_witness : dryLapseTemperature 1000 25 1000 = 25 :=
  c7_dry_lapse_identity 1000 25 (by norm_num)

/-- Claim C6: the pipeline is a pure transform with no cross-call state —
two invocations on the same raw records yield identical parse results and
identical `Sounding`, `ParcelTrace` and `EnergyResult` values (all fields
of `runPipeline`'s output). -/
theorem c6_pipeline_deterministic (raws1 raws2 : List RawRecord)
    (h : raws1 = raws2) :
    runPipeline raws1 = runPipeline raws2 ∧
      fetch_sounding raws1 = fetch_sounding raws2 := by
  subst h
  exact ⟨rfl, rfl⟩

/-- Concrete run of `c6_pipeline_deterministic` on a one-record feed. -/
theorem c6_witness :
    runPipeline [exGood1] = runPipeline [exGood1] ∧
      fetch_sounding [exGood1] = fetch_sounding [exGood1] :=
  c6_pipeline_deterministic [exGood1] [exGood1] rfl

/-- Claim C9: whatever outcome the external CAPE/CIN computation has,
`create_skewt_figure` returns a completed figure; when the computation
raised, both CAPE and CIN are set to `NaN` (`none`) together — the
exception is absorbed, no text line is drawn, and neither value is
reported as a number while the other is absent. -/
theorem c9_exception_sets_both_nan (err : String) (ts : Timestamp)
    (res : Except String (Option ℝ × Option ℝ)) :
    create_skewt_figure (Except.error err) ts =
        Except.ok ⟨ts, none, none, []⟩ ∧
      ∃ fig, create_skewt_figure res ts = Except.ok fig :=
  ⟨rfl, ⟨_, rfl⟩⟩

/-- Claim C3: when no layer of the merged profile is positively buoyant,
the energy integrator reports CAPE as undefined (`none`, the embedding of
`NaN`), not zero; and the figure renders it as unavailable — no CAPE text
line appears. -/
theorem c3_cape_undefined_not_zero (xs : List (ℝ × ℝ × ℝ)) (ts : Timestamp)
    (h : ∀ c ∈ layerContribs xs, c ≤ 0) :
    (energyResult xs).cape = none ∧
      ∀ fig, create_skewt_figure
          (Except.ok ((energyResult xs).cape, (energyResult xs).cin)) ts =
            Except.ok fig →
        ∀ v, EnergyLine.capeLine v ∉ fig.textLines := by
  have hfil : (layerContribs xs).filter (fun c => decide (0 < c)) = [] := by
    apply List.filter_eq_nil_iff.mpr
    intro c hc
    simpa using not_lt.mpr (h c hc)
  have hcape : (energyResult xs).cape = none := by
    simp [energyResult, hfil]
  refine ⟨hcape, ?_⟩
  intro fig hfig v
  have hfig2 : (Except.ok (⟨ts, (energyResult xs).cape, (energyResult xs).cin,
      energyTextLines (energyResult xs).cape (energyResult xs).cin⟩ : SkewTFigure)
        : Except String SkewTFigure) = Except.ok fig := hfig
  have hfig3 := Except.ok.inj hfig2
  subst hfig3
  rw [hcape]
  cases hcin : (energyResult xs).cin with
  | none =>
    intro hmem
    simp [energyTextLines] at hmem
  | some w =>
    intro hmem
    simp [energyTextLines] at hmem

/-- Concrete run of `c3_cape_undefined_not_zero` on the neutral
two-level profile, whose single layer contribution is zero. -/
theorem c3_witness : (energyResult exNeutralProfile).cape = none :=
  (c3_cape_undefined_not_zero exNeutralProfile ⟨2023, 10, 12, 0, 0⟩
    (by
      intro c hc
      have hl : layerContribs exNeutralProfile =
          [dryAirGasConstant * Real.log ((1000 : ℝ) / 500) *
            (((20 : ℝ) - 20 + ((-10 : ℝ) - -10)) / 2)] := rfl
      rw [hl] at hc
      rcases List.mem_singleton.mp hc with rfl
      norm_num)).1

/-- For a saturated surface parcel the solver's update map fixes the
surface pressure: recovering the vapour pressure of the conserved mixing
ratio at `p0` gives back the saturation vapour pressure of the dewpoint. -/
theorem vapor_pressure_roundtrip (p0 T0 : ℝ)
    (hp : saturationVaporPressure T0 < p0) :
    vaporPressureOfMixing p0 (saturationMixingRatio p0 T0) =
      saturationVaporPressure T0 := by
  have hes_pos : 0 < saturationVaporPressure T0 := by
    unfold saturationVaporPressure
    positivity
  have hp0 : 0 < p0 := lt_trans hes_pos hp
  have hne : p0 - saturationVaporPressure T0 ≠ 0 := ne_of_gt (sub_pos.mpr hp)
  have heps : (0 : ℝ) < epsilon := by norm_num [epsilon]
  have hsum : epsilon + epsilon * saturationVaporPressure T0 /
      (p0 - saturationVaporPressure T0) =
      epsilon * p0 / (p0 - saturationVaporPressure T0) := by
    field_simp
    ring
  have hnz : epsilon * p0 / (p0 - saturationVaporPressure T0) ≠ 0 :=
    div_ne_zero (mul_ne_zero (ne_of_gt heps) (ne_of_gt hp0)) hne
  unfold vaporPressureOfMixing saturationMixingRatio
  rw [hsum, div_eq_iff hnz]
  field_simp
  ring

/-- The dewpoint formula inverts the saturation vapour-pressure formula:
`dewpointAtVaporPressure (saturationVaporPressure T) = T` on the physical
range `T > -243.5`. -/
theorem dewpoint_inverts_svp (T0 : ℝ) (hT : -243.5 < T0) :
    dewpointAtVaporPressure (saturationVaporPressure T0) = T0 := by
  have hTk : (0 : ℝ) < T0 + 243.5 := by linarith
  have hlog : Real.log (saturationVaporPressure T0 / 6.112) =
      17.67 * T0 / (T0 + 243.5) := by
    unfold saturationVaporPressure
    rw [mul_comm, mul_div_assoc, div_self (by norm_num : (6.112 : ℝ) ≠ 0), mul_one]
    exact Real.log_exp _
  unfold dewpointAtVaporPressure
  rw [hlog]
  have h1 : 17.67 - 17.67 * T0 / (T0 + 243.5) =
      17.67 * 243.5 / (T0 + 243.5) := by
    field_simp
    ring
  have hnz2 : 17.67 * 243.5 / (T0 + 243.5) ≠ 0 :=
    div_ne_zero (by norm_num) (ne_of_gt hTk)
  rw [h1, div_eq_iff hnz2]
  field_simp
  ring

/-- Claim C8: for a saturated surface parcel (surface temperature equal to
surface dewpoint) the computed LCL pressure equals the surface pressure
within 0.1 hPa: the solver's first update already fixes `p0`, so it
converges there immediately. -/
theorem c8_saturated_lcl_at_surface (p0 T0 : ℝ) (hT : -243.5 < T0)
    (hp : saturationVaporPressure T0 < p0) :
    |lclPressure p0 T0 T0 - p0| < 0.1 := by
  have hT273 : (0 : ℝ) < T0 + 273.15 := by linarith
  have hstep : lclStep p0 T0 T0 p0 = p0 := by
    show p0 * ((dewpointAtVaporPressure
        (vaporPressureOfMixing p0 (saturationMixingRatio p0 T0)) + 273.15) /
          (T0 + 273.15)) ^ (1 / kappa) = p0
    rw [vapor_pressure_roundtrip p0 T0 hp, dewpoint_inverts_svp T0 hT,
      div_self (ne_of_gt hT273), Real.one_rpow, mul_one]
  have hiter : lclPressure p0 T0 T0 = p0 := by
    have hone : lclPressure p0 T0 T0 =
        if |lclStep p0 T0 T0 p0 - p0| < 0.01 then lclStep p0 T0 T0 p0
        else lclIterate p0 T0 T0 49 (lclStep p0 T0 T0 p0) := rfl
    rw [hone, hstep, sub_self, abs_zero, if_pos (by norm_num)]
  rw [hiter, sub_self, abs_zero]
  norm_num

/-- Concrete run of `c8_saturated_lcl_at_surface` at 1000 hPa and 0 °C
(saturation vapour pressure 6.112 hPa, well below the surface
pressure). -/
theorem c8_witness : |lclPressure 1000 0 0 - 1000| < 0.1 :=
  c8_saturated_lcl_at_surface 1000 0 (by norm_num)
    (by
      show 6.112 * Real.exp (17.67 * 0 / (0 + 243.5)) < 1000
      norm_num)

end SkewT
